import Mathlib

/-
Verification of the Remeha Home integration (custom_components/remeha_home_by_chester):
a shallow embedding of climate.py, hot_water.py and utils.py, together with
theorems settling the frozen claims about the debounced command coordinator,
the optimistic overlay, and the mode translators.

Conventions of the embedding:
  - Home Assistant's `HVACMode` / `HVACAction` string enums become inductive types.
  - Python dicts used as constant lookup tables become functions into `Option`
    (`dict.get`), and direct `dict[k]` indexing is modelled as raising `KeyError`
    when the key is missing.
  - Temperatures (Python floats) are modelled as exact rationals; `int(x)`
    truncates toward zero.
  - A Python coroutine that either returns a value or raises becomes `Py α`.
  - The per-instance `_debounce_tasks` dict of utils.py becomes an association
    list from action name to the latest asyncio task, and the replaced task
    objects (still owned by the event loop) are kept in a `retired` list.
-/

/-- Home Assistant `HVACMode` (homeassistant.components.climate): a string enum
with members OFF, HEAT, COOL, HEAT_COOL, AUTO, DRY, FAN_ONLY. -/
inductive HVACMode : Type where
  | off
  | heat
  | cool
  | heat_cool
  | auto
  | dry
  | fan_only
deriving DecidableEq, Repr

/-- Home Assistant `HVACAction`: a string enum with members OFF, PREHEATING,
HEATING, COOLING, DRYING, FAN, IDLE, DEFROSTING. -/
inductive HVACAction : Type where
  | off
  | preheating
  | heating
  | cooling
  | drying
  | fan
  | idle
  | defrosting
deriving DecidableEq, Repr

/-- Python exceptions raised by the embedded code: `KeyError` from `dict[k]`
indexing, `TypeError` from calling a non-callable, `NotImplementedError` raised
for an unsupported HVAC mode, and an error raised by a failed remote API call. -/
inductive PyError : Type where
  | keyError
  | typeError
  | notImplementedError
  | remoteCallFailed
deriving DecidableEq, Repr

/-- Result of running a Python coroutine body: it returns a value or raises. -/
inductive Py (α : Type) : Type where
  | ok (val : α)
  | raised (e : PyError)
deriving DecidableEq, Repr

/-- Python `int(x)` on a float: truncation toward zero. -/
def pyInt (q : ℚ) : ℤ :=
  if 0 ≤ q then q.floor else q.ceil

/-- One async operation of `RemehaHomeAPI` (api.py), recorded with its
arguments; the facade and the debounced works emit lists of these. -/
inductive RemoteCall : Type where
  | setTemporaryOverride (zoneId : String) (temperature : ℚ)
  | setManual (zoneId : String) (temperature : ℚ)
  | setSchedule (zoneId : String) (program : ℤ)
  | setOff (zoneId : String)
  | activateHeatingTimeProgram (zoneId : String) (program : ℤ)
  | hwSetComfortSetpoint (zoneId : String) (temperature : ℚ)
  | hwSetContinuousComfort (zoneId : String)
  | hwSetSchedule (zoneId : String)
  | hwSetOff (zoneId : String)
deriving DecidableEq, Repr

/-- State of `RemehaHomeUpdateCoordinator` that the claims touch: the deadline
until which background poll results are suppressed. -/
structure Coordinator : Type where
  suppressUntil : ℕ
deriving DecidableEq, Repr

/-- Modelled from the spec: `RemehaHomeUpdateCoordinator.trigger_update_block`
lives in coordinator.py, which is not among the given sources; per spec section 4.3,
`suppressRefreshFor(zoneId, duration)` sets/extends `suppressUntil = now + duration`. -/
def trigger_update_block (now duration : ℕ) (c : Coordinator) : Coordinator :=
  { c with suppressUntil := now + duration }

/-- Modelled from the spec: the periodic poller applies a fetched snapshot for a
zone only once the suppression window has expired (`now > suppressUntil`, spec
section 4.3); while suppressed, the overlaid cached state wins. -/
def applyPoll {σ : Type} (now : ℕ) (c : Coordinator) (fresh cached : σ) : σ :=
  if c.suppressUntil < now then fresh else cached

namespace ClimatePy

/-! Module-level lookup tables of climate.py. -/

/-- climate.py `REMEHA_MODE_TO_HVAC_MODE` (climate zone), read with `.get`. -/
def REMEHA_MODE_TO_HVAC_MODE (m : String) : Option HVACMode :=
  if m = "Scheduling" then some HVACMode.auto
  else if m = "TemporaryOverride" then some HVACMode.auto
  else if m = "Manual" then some HVACMode.heat
  else if m = "FrostProtection" then some HVACMode.off
  else none

/-- climate.py `HVAC_MODE_TO_REMEHA_MODE` (climate zone), read with `.get`. -/
def HVAC_MODE_TO_REMEHA_MODE (m : HVACMode) : Option String :=
  match m with
  | HVACMode.auto => some "Scheduling"
  | HVACMode.heat => some "Manual"
  | HVACMode.off => some "FrostProtection"
  | _ => none

/-- climate.py `REMEHA_STATUS_TO_HVAC_ACTION`, read with `.get`. -/
def REMEHA_STATUS_TO_HVAC_ACTION (s : String) : Option HVACAction :=
  if s = "ProducingHeat" then some HVACAction.heating
  else if s = "RequestingHeat" then some HVACAction.heating
  else if s = "Idle" then some HVACAction.idle
  else none

/-- climate.py `PRESET_INDEX_TO_PRESET_MODE`: `{1: "clock_program_1", 2: …, 3: …}`. -/
def PRESET_INDEX_TO_PRESET_MODE (i : ℤ) : Option String :=
  if i = 1 then some "clock_program_1"
  else if i = 2 then some "clock_program_2"
  else if i = 3 then some "clock_program_3"
  else none

/-- climate.py `PRESET_MODE_TO_PRESET_INDEX`. -/
def PRESET_MODE_TO_PRESET_INDEX (p : String) : Option ℤ :=
  if p = "clock_program_1" then some 1
  else if p = "clock_program_2" then some 2
  else if p = "clock_program_3" then some 3
  else none

/-- climate.py `REMEHA_HW_MODE_TO_HVAC_MODE` (hot-water zone vocabulary). -/
def REMEHA_HW_MODE_TO_HVAC_MODE (m : String) : Option HVACMode :=
  if m = "ContinuousComfort" then some HVACMode.heat
  else if m = "Scheduling" then some HVACMode.auto
  else if m = "Off" then some HVACMode.off
  else none

/-- climate.py `HVAC_MODE_TO_REMEHA_HW_MODE`. -/
def HVAC_MODE_TO_REMEHA_HW_MODE (m : HVACMode) : Option String :=
  match m with
  | HVACMode.auto => some "Scheduling"
  | HVACMode.heat => some "ContinuousComfort"
  | HVACMode.off => some "Off"
  | _ => none

/-- climate.py `REMEHA_HW_STATUS_TO_HVAC_ACTION`. -/
def REMEHA_HW_STATUS_TO_HVAC_ACTION (s : String) : Option HVACAction :=
  if s = "ProducingHeat" then some HVACAction.heating
  else if s = "RequestingHeat" then some HVACAction.heating
  else if s = "Idle" then some HVACAction.idle
  else none

/-- climate.py `PRESET_INDEX_TO_HW_PRESET_MODE`: `{1: "Scheduling program"}`. -/
def PRESET_INDEX_TO_HW_PRESET_MODE (i : ℤ) : Option String :=
  if i = 1 then some "Scheduling program" else none

/-- climate.py `HW_PRESET_MODE_TO_PRESET_INDEX`. -/
def HW_PRESET_MODE_TO_PRESET_INDEX (p : String) : Option ℤ :=
  if p = "Scheduling program" then some 1 else none

end ClimatePy

/-- Forward-then-back translation of an abstract mode through the climate-zone
maps of climate.py: abstract mode to vendor string to abstract mode. -/
def roundTripClimateMode (m : HVACMode) : Option HVACMode :=
  (ClimatePy.HVAC_MODE_TO_REMEHA_MODE m).bind ClimatePy.REMEHA_MODE_TO_HVAC_MODE

/-- Back-then-forward translation of a vendor string through the climate-zone
maps of climate.py: vendor string to abstract mode to vendor string. -/
def roundTripClimateVendor (s : String) : Option String :=
  (ClimatePy.REMEHA_MODE_TO_HVAC_MODE s).bind ClimatePy.HVAC_MODE_TO_REMEHA_MODE

/-- Cached data of one climate zone as returned by
`coordinator.get_by_id(climate_zone_id)` (the fields of `self._data` that
climate.py reads or overwrites).  `zoneMode` is an `Option` because the value
written back by the overlay is `HVAC_MODE_TO_REMEHA_MODE.get(...)`, which is
`None` when the mode is not a key. -/
structure ClimateZoneData : Type where
  roomTemperature : ℚ
  setPoint : ℚ
  setPointMin : ℚ
  setPointMax : ℚ
  zoneMode : Option String
  activeComfortDemand : String
  activeHeatingClimateTimeProgramNumber : ℤ
deriving DecidableEq, Repr

/-- Cached data of one hot-water zone as returned by
`coordinator.get_by_id(hot_water_zone_id)` (the fields that climate.py's and
hot_water.py's hot-water entities read or overwrite).  `dhwZoneMode` is an
`Option` because hot_water.py writes `HVAC_MODE_TO_REMEHA_MODE.get(mode)` into
it, which is `None` for an unsupported mode. -/
structure HotWaterZoneData : Type where
  dhwTemperature : ℚ
  targetSetpoint : ℚ
  setPointMax : ℚ
  dhwZoneMode : Option String
  dhwStatus : String
  activeDwhTimeProgramNumber : ℤ
  comfortSetPoint : ℚ
deriving DecidableEq, Repr

/-- Outcome of one facade write operation: the cached zone data after any
overlay writes, the coordinator state, the remote calls the operation's work
performs (in order), and whether the coroutine returned or raised. -/
structure WriteResult (σ : Type) : Type where
  data : σ
  coord : Coordinator
  calls : List RemoteCall
  outcome : Py Unit
deriving DecidableEq, Repr

namespace ClimatePy

namespace ClimateEntity

/-! Methods of `RemehaHomeClimateEntity` (climate.py). -/

/-- Property `hvac_mode`: `REMEHA_MODE_TO_HVAC_MODE.get(self._data["zoneMode"])`. -/
def hvac_mode (z : ClimateZoneData) : Option HVACMode :=
  z.zoneMode.bind REMEHA_MODE_TO_HVAC_MODE

/-- List `hvac_modes` advertised by the entity. -/
def hvac_modes : List HVACMode :=
  [HVACMode.off, HVACMode.heat, HVACMode.auto]

/-- Property `hvac_action`: `HVACAction.OFF` while the mode reads Off, else
`REMEHA_STATUS_TO_HVAC_ACTION.get(self._data["activeComfortDemand"])`. -/
def hvac_action (z : ClimateZoneData) : Option HVACAction :=
  if hvac_mode z = some HVACMode.off then some HVACAction.off
  else REMEHA_STATUS_TO_HVAC_ACTION z.activeComfortDemand

/-- Property `preset_mode`: anti_frost while Off, manual while Heat, otherwise
`PRESET_INDEX_TO_PRESET_MODE[self._data["activeHeatingClimateTimeProgramNumber"]]`
— direct indexing, so a missing key raises `KeyError`. -/
def preset_mode (z : ClimateZoneData) : Py String :=
  if hvac_mode z = some HVACMode.off then Py.ok "anti_frost"
  else if hvac_mode z = some HVACMode.heat then Py.ok "manual"
  else
    match PRESET_INDEX_TO_PRESET_MODE z.activeHeatingClimateTimeProgramNumber with
    | some p => Py.ok p
    | none => Py.raised PyError.keyError

/-- Body of the debounced `set_temperature` once it fires: a temporary-override
call in Auto, a set-manual call in Heat, and nothing otherwise. -/
def set_temperature (zoneId : String) (z : ClimateZoneData) (temperature : ℚ) :
    List RemoteCall :=
  if hvac_mode z = some HVACMode.auto then
    [RemoteCall.setTemporaryOverride zoneId temperature]
  else if hvac_mode z = some HVACMode.heat then
    [RemoteCall.setManual zoneId temperature]
  else []

/-- Body of the debounced `set_hvac_mode` once it fires; `z` is the cached data
at fire time (the facade has already overlaid `zoneMode`). -/
def set_hvac_mode (zoneId : String) (z : ClimateZoneData) (m : HVACMode) :
    List RemoteCall :=
  if m = HVACMode.auto then
    [RemoteCall.setSchedule zoneId z.activeHeatingClimateTimeProgramNumber]
  else if m = HVACMode.heat then
    [RemoteCall.setManual zoneId z.setPoint]
  else if m = HVACMode.off then
    [RemoteCall.setOff zoneId]
  else []

/-- Python: calling an `HVACMode` enum member — the source writes
`HVACMode.AUTO()` — raises `TypeError: 'HVACMode' object is not callable`,
because `StrEnum` members are `str` instances and neither `str` nor `Enum`
defines an instance-level `__call__`. -/
def callEnumMember (_m : HVACMode) : Py HVACMode :=
  Py.raised PyError.typeError

/-- Body of the debounced `activate_heating_time_program` once it fires: the
activate-time-program call, then the guard
`if previous_hvac_mode != HVACMode.AUTO():` whose right-hand side calls the
enum member and therefore raises before the comparison is decided. -/
def activate_heating_time_program (zoneId : String) (targetPreset : ℤ)
    (previousHvacMode : Option HVACMode) : List RemoteCall × Py Unit :=
  let calls := [RemoteCall.activateHeatingTimeProgram zoneId targetPreset]
  match callEnumMember HVACMode.auto with
  | Py.raised e => (calls, Py.raised e)
  | Py.ok autoMember =>
      if previousHvacMode ≠ some autoMember then
        (calls ++ [RemoteCall.setSchedule zoneId targetPreset], Py.ok ())
      else (calls, Py.ok ())

/-- Facade `async_set_temperature` (climate.py): returns at once while Off,
otherwise submits the debounced work and blocks coordinator updates for 60
seconds.  `calls` records what the submitted work performs when it fires. -/
def async_set_temperature (zoneId : String) (now : ℕ) (c : Coordinator)
    (z : ClimateZoneData) (temperature : ℚ) : WriteResult ClimateZoneData :=
  if hvac_mode z = some HVACMode.off then
    { data := z, coord := c, calls := [], outcome := Py.ok () }
  else
    { data := z
      coord := trigger_update_block now 60 c
      calls := set_temperature zoneId z temperature
      outcome := Py.ok () }

/-- Facade `async_set_hvac_mode` (climate.py): raises `NotImplementedError`
before touching any state when the mode is not in `hvac_modes`; otherwise
overlays `zoneMode`, submits the debounced work (which reads the overlaid
data), and blocks updates for 60 seconds. -/
def async_set_hvac_mode (zoneId : String) (now : ℕ) (c : Coordinator)
    (z : ClimateZoneData) (m : HVACMode) : WriteResult ClimateZoneData :=
  if m ∈ hvac_modes then
    let z' := { z with zoneMode := HVAC_MODE_TO_REMEHA_MODE m }
    { data := z'
      coord := trigger_update_block now 60 c
      calls := set_hvac_mode zoneId z' m
      outcome := Py.ok () }
  else
    { data := z, coord := c, calls := [], outcome := Py.raised PyError.notImplementedError }

/-- Result of the facade `async_set_preset_mode`: the overlaid data, the
coordinator, and the arguments of the submitted debounced work
(`activate_heating_time_program(target_preset, previous_hvac_mode)`), or
`none` when the unknown preset was logged and dropped. -/
structure PresetWrite : Type where
  data : ClimateZoneData
  coord : Coordinator
  submitted : Option (ℤ × Option HVACMode)
deriving DecidableEq, Repr

/-- Facade `async_set_preset_mode` (climate.py): drops unknown presets,
otherwise records the previous mode, overlays mode := Auto and the active
program number, submits the debounced work, and blocks updates for 60 s. -/
def async_set_preset_mode (now : ℕ) (c : Coordinator)
    (z : ClimateZoneData) (presetMode : String) : PresetWrite :=
  match PRESET_MODE_TO_PRESET_INDEX presetMode with
  | none => { data := z, coord := c, submitted := none }
  | some targetPreset =>
      let previousHvacMode := hvac_mode z
      let z' := { z with
        zoneMode := HVAC_MODE_TO_REMEHA_MODE HVACMode.auto
        activeHeatingClimateTimeProgramNumber := targetPreset }
      { data := z'
        coord := trigger_update_block now 60 c
        submitted := some (targetPreset, previousHvacMode) }

end ClimateEntity

namespace HotWaterEntity

/-! Methods of `RemehaHomeHotWaterEntity` as defined in climate.py. -/

/-- Property `hvac_mode`: `REMEHA_HW_MODE_TO_HVAC_MODE.get(self._data["dhwZoneMode"])`. -/
def hvac_mode (z : HotWaterZoneData) : Option HVACMode :=
  z.dhwZoneMode.bind REMEHA_HW_MODE_TO_HVAC_MODE

/-- List `hvac_modes` advertised by the entity. -/
def hvac_modes : List HVACMode :=
  [HVACMode.off, HVACMode.heat, HVACMode.auto]

/-- Property `hvac_action` of the climate.py hot-water entity. -/
def hvac_action (z : HotWaterZoneData) : Option HVACAction :=
  if hvac_mode z = some HVACMode.off then some HVACAction.off
  else REMEHA_HW_STATUS_TO_HVAC_ACTION z.dhwStatus

/-- Property `preset_mode` of the climate.py hot-water entity: direct indexing
into `PRESET_INDEX_TO_HW_PRESET_MODE`, raising `KeyError` on a missing key. -/
def preset_mode (z : HotWaterZoneData) : Py String :=
  if hvac_mode z = some HVACMode.off then Py.ok "anti_frost"
  else if hvac_mode z = some HVACMode.heat then Py.ok "manual"
  else
    match PRESET_INDEX_TO_HW_PRESET_MODE z.activeDwhTimeProgramNumber with
    | some p => Py.ok p
    | none => Py.raised PyError.keyError

/-- Body of the debounced `set_continuous_comfort_with_temperature` once it
fires: set the comfort setpoint, then select continuous comfort. -/
def set_continuous_comfort_with_temperature (zoneId : String) (temperature : ℚ) :
    List RemoteCall :=
  [RemoteCall.hwSetComfortSetpoint zoneId temperature,
   RemoteCall.hwSetContinuousComfort zoneId]

/-- Body of the debounced hot-water `set_hvac_mode` once it fires. -/
def set_hvac_mode (zoneId : String) (m : HVACMode) : List RemoteCall :=
  if m = HVACMode.auto then [RemoteCall.hwSetSchedule zoneId]
  else if m = HVACMode.heat then [RemoteCall.hwSetContinuousComfort zoneId]
  else if m = HVACMode.off then [RemoteCall.hwSetOff zoneId]
  else []

/-- Body of the debounced hot-water `set_schedule` once it fires. -/
def set_schedule (zoneId : String) : List RemoteCall :=
  [RemoteCall.hwSetSchedule zoneId]

/-- Facade `async_set_temperature` of the climate.py hot-water entity: the
requested value is first truncated by `int(temperature)`; in Heat mode the
debounced two-call work is submitted, updates are blocked 60 s and the overlay
is written; in every other mode the method returns without side effects. -/
def async_set_temperature (zoneId : String) (now : ℕ) (c : Coordinator)
    (z : HotWaterZoneData) (temperature : ℚ) : WriteResult HotWaterZoneData :=
  let truncated : ℤ := pyInt temperature
  if hvac_mode z = some HVACMode.heat then
    { data := { z with
        targetSetpoint := (truncated : ℚ)
        dhwZoneMode := HVAC_MODE_TO_REMEHA_HW_MODE HVACMode.heat }
      coord := trigger_update_block now 60 c
      calls := set_continuous_comfort_with_temperature zoneId (truncated : ℚ)
      outcome := Py.ok () }
  else
    { data := z, coord := c, calls := [], outcome := Py.ok () }

/-- Facade `async_set_hvac_mode` of the climate.py hot-water entity: raises
`NotImplementedError` before touching state for an unsupported mode; otherwise
overlays `dhwZoneMode` (and the displayed target: the comfort setpoint for
Heat, the fixed 10.0 for Off), submits the debounced work, blocks 60 s. -/
def async_set_hvac_mode (zoneId : String) (now : ℕ) (c : Coordinator)
    (z : HotWaterZoneData) (m : HVACMode) : WriteResult HotWaterZoneData :=
  if m ∈ hvac_modes then
    let z₁ := { z with dhwZoneMode := HVAC_MODE_TO_REMEHA_HW_MODE m }
    let z₂ :=
      if m = HVACMode.heat then { z₁ with targetSetpoint := z₁.comfortSetPoint }
      else if m = HVACMode.off then { z₁ with targetSetpoint := 10 }
      else z₁
    { data := z₂
      coord := trigger_update_block now 60 c
      calls := set_hvac_mode zoneId m
      outcome := Py.ok () }
  else
    { data := z, coord := c, calls := [], outcome := Py.raised PyError.notImplementedError }

/-- Facade `async_set_preset_mode` of the climate.py hot-water entity: drops
unknown presets; when the previous mode was not already Auto it overlays mode
and program, submits the debounced `set_schedule` and blocks updates 60 s;
otherwise it only requests a refresh. -/
def async_set_preset_mode (zoneId : String) (now : ℕ) (c : Coordinator)
    (z : HotWaterZoneData) (presetMode : String) : WriteResult HotWaterZoneData :=
  match HW_PRESET_MODE_TO_PRESET_INDEX presetMode with
  | none => { data := z, coord := c, calls := [], outcome := Py.ok () }
  | some targetPreset =>
      if hvac_mode z ≠ some HVACMode.auto then
        { data := { z with
            dhwZoneMode := HVAC_MODE_TO_REMEHA_HW_MODE HVACMode.auto
            activeDwhTimeProgramNumber := targetPreset }
          coord := trigger_update_block now 60 c
          calls := set_schedule zoneId
          outcome := Py.ok () }
      else
        { data := z, coord := c, calls := [], outcome := Py.ok () }

end HotWaterEntity

end ClimatePy

namespace HotWaterPy

/-! Module-level lookup tables and the hot-water entity of hot_water.py.
These shadow the names of climate.py but hold different tables: this module
translates the hot-water zone with the climate-zone vocabulary. -/

/-- hot_water.py `REMEHA_MODE_TO_HVAC_MODE`: `{Manual: HEAT, Scheduling: AUTO,
FrostProtection: OFF}` — the climate vocabulary, applied to a hot-water zone. -/
def REMEHA_MODE_TO_HVAC_MODE (m : String) : Option HVACMode :=
  if m = "Manual" then some HVACMode.heat
  else if m = "Scheduling" then some HVACMode.auto
  else if m = "FrostProtection" then some HVACMode.off
  else none

/-- hot_water.py `HVAC_MODE_TO_REMEHA_MODE`. -/
def HVAC_MODE_TO_REMEHA_MODE (m : HVACMode) : Option String :=
  match m with
  | HVACMode.auto => some "Scheduling"
  | HVACMode.heat => some "Manual"
  | HVACMode.off => some "FrostProtection"
  | _ => none

/-- hot_water.py `REMEHA_STATUS_TO_HVAC_ACTION`. -/
def REMEHA_STATUS_TO_HVAC_ACTION (s : String) : Option HVACAction :=
  if s = "ProducingHeat" then some HVACAction.heating
  else if s = "RequestingHeat" then some HVACAction.heating
  else if s = "Idle" then some HVACAction.idle
  else none

/-- hot_water.py `PRESET_INDEX_TO_PRESET_MODE`: `{1: "Scheduling program"}`. -/
def PRESET_INDEX_TO_PRESET_MODE (i : ℤ) : Option String :=
  if i = 1 then some "Scheduling program" else none

/-- hot_water.py `PRESET_MODE_TO_PRESET_INDEX`. -/
def PRESET_MODE_TO_PRESET_INDEX (p : String) : Option ℤ :=
  if p = "Scheduling program" then some 1 else none

namespace HotWaterEntity

/-! Methods of `RemehaHomeHotWaterEntity` (hot_water.py).  This entity has no
debouncing: its facade methods call the API client directly, and none of them
calls `coordinator.trigger_update_block`. -/

/-- Property `hvac_mode` (hot_water.py). -/
def hvac_mode (z : HotWaterZoneData) : Option HVACMode :=
  z.dhwZoneMode.bind REMEHA_MODE_TO_HVAC_MODE

/-- List `hvac_modes` advertised by the entity. -/
def hvac_modes : List HVACMode :=
  [HVACMode.off, HVACMode.heat, HVACMode.auto]

/-- Property `hvac_action` (hot_water.py). -/
def hvac_action (z : HotWaterZoneData) : Option HVACAction :=
  if hvac_mode z = some HVACMode.off then some HVACAction.off
  else REMEHA_STATUS_TO_HVAC_ACTION z.dhwStatus

/-- Property `preset_mode` (hot_water.py): direct indexing into
`PRESET_INDEX_TO_PRESET_MODE`, raising `KeyError` on a missing key. -/
def preset_mode (z : HotWaterZoneData) : Py String :=
  if hvac_mode z = some HVACMode.off then Py.ok "anti_frost"
  else if hvac_mode z = some HVACMode.heat then Py.ok "manual"
  else
    match PRESET_INDEX_TO_PRESET_MODE z.activeDwhTimeProgramNumber with
    | some p => Py.ok p
    | none => Py.raised PyError.keyError

/-- Facade `async_set_temperature` (hot_water.py): no `int()` truncation — the
raw requested value is transmitted; no debouncing, no update block. -/
def async_set_temperature (zoneId : String) (_now : ℕ) (c : Coordinator)
    (z : HotWaterZoneData) (temperature : ℚ) : WriteResult HotWaterZoneData :=
  if hvac_mode z = some HVACMode.auto then
    { data := z, coord := c, calls := [], outcome := Py.ok () }
  else if hvac_mode z = some HVACMode.heat then
    { data := z
      coord := c
      calls := [RemoteCall.hwSetComfortSetpoint zoneId temperature,
                RemoteCall.hwSetContinuousComfort zoneId]
      outcome := Py.ok () }
  else if hvac_mode z = some HVACMode.off then
    { data := z, coord := c, calls := [], outcome := Py.ok () }
  else
    { data := z, coord := c, calls := [], outcome := Py.ok () }

/-- Facade `async_set_hvac_mode` (hot_water.py): writes
`self._data["dhwZoneMode"] = HVAC_MODE_TO_REMEHA_MODE.get(hvac_mode)` — possibly
`None` — before any mode check, then branches, raising `NotImplementedError`
only in the final else; no update block. -/
def async_set_hvac_mode (zoneId : String) (_now : ℕ) (c : Coordinator)
    (z : HotWaterZoneData) (m : HVACMode) : WriteResult HotWaterZoneData :=
  let z' := { z with dhwZoneMode := HVAC_MODE_TO_REMEHA_MODE m }
  if m = HVACMode.auto then
    { data := z', coord := c
      calls := [RemoteCall.setSchedule zoneId z'.activeDwhTimeProgramNumber]
      outcome := Py.ok () }
  else if m = HVACMode.heat then
    { data := z', coord := c
      calls := [RemoteCall.hwSetContinuousComfort zoneId]
      outcome := Py.ok () }
  else if m = HVACMode.off then
    { data := z', coord := c
      calls := [RemoteCall.hwSetOff zoneId]
      outcome := Py.ok () }
  else
    { data := z', coord := c, calls := [], outcome := Py.raised PyError.notImplementedError }

/-- Facade `async_set_preset_mode` (hot_water.py): drops unknown presets; when
the previous mode was not Auto, overlays mode and program and issues the
schedule call directly; no update block. -/
def async_set_preset_mode (zoneId : String) (_now : ℕ) (c : Coordinator)
    (z : HotWaterZoneData) (presetMode : String) : WriteResult HotWaterZoneData :=
  match PRESET_MODE_TO_PRESET_INDEX presetMode with
  | none => { data := z, coord := c, calls := [], outcome := Py.ok () }
  | some targetPreset =>
      if hvac_mode z ≠ some HVACMode.auto then
        { data := { z with
            dhwZoneMode := HVAC_MODE_TO_REMEHA_MODE HVACMode.auto
            activeDwhTimeProgramNumber := targetPreset }
          coord := c
          calls := [RemoteCall.hwSetSchedule zoneId]
          outcome := Py.ok () }
      else
        { data := z, coord := c, calls := [], outcome := Py.ok () }

end HotWaterEntity

end HotWaterPy

/-! Model of `debounce_async` (utils.py).

The decorator keyed by `method.__name__` keeps, per instance, the dict
`self._debounce_tasks : key → task`.  On every call the wrapper cancels the
task currently stored for the key when it is not yet done, creates a new task
running `delayed()` (sleep `delay`, then the method), stores it under the key
and returns `None` without awaiting it.  `delayed()` catches only
`asyncio.CancelledError`.

A task is a record with the scheduled fire time, the payload (what the wrapped
method does when it runs), and two monotone flags.  The dict holds the latest
task per key; replaced task objects remain owned by the event loop, kept here
in a `retired` list.  Time is advanced explicitly; advancing past a live
task's fire time fires it. -/

/-- One asyncio task created by the debounce wrapper. -/
structure DebTask (α : Type) : Type where
  key : String
  fireAt : ℕ
  payload : α
  cancelled : Bool
  fired : Bool
deriving DecidableEq, Repr

/-- Python `task.done()`: the task has finished, by firing or by cancellation. -/
def DebTask.done {α : Type} (t : DebTask α) : Bool :=
  t.cancelled || t.fired

/-- A task is live when it is scheduled but neither cancelled nor fired. -/
def DebTask.live {α : Type} (t : DebTask α) : Bool :=
  !t.cancelled && !t.fired

/-- Python `task.cancel()` as used by the wrapper (guarded by
`if prev_task and not prev_task.done()`): a done task is left alone. -/
def DebTask.cancel {α : Type} (t : DebTask α) : DebTask α :=
  if t.done then t else { t with cancelled := true }

/-- A live task whose fire time has been reached fires; everything else is
left unchanged. -/
def fireDue {α : Type} (now : ℕ) (t : DebTask α) : DebTask α :=
  if t.live ∧ t.fireAt ≤ now then { t with fired := true } else t

/-- State of one entity instance's debounce machinery plus the clock. -/
structure DebState (α : Type) : Type where
  now : ℕ
  slots : List (String × DebTask α)
  retired : List (DebTask α)
deriving DecidableEq, Repr

/-- Initial state: `_debounce_tasks` empty, no tasks, time zero. -/
def DebState.init (α : Type) : DebState α :=
  { now := 0, slots := [], retired := [] }

/-- Python `dict.get(key)` on the `_debounce_tasks` association list. -/
def dictGet {β : Type} (key : String) : List (String × β) → Option β
  | [] => none
  | p :: rest => if p.1 = key then some p.2 else dictGet key rest

/-- Python `dict[key] = v`: replace the existing binding or append a new one. -/
def dictSet {β : Type} (key : String) (v : β) : List (String × β) → List (String × β)
  | [] => [(key, v)]
  | p :: rest => if p.1 = key then (key, v) :: rest else p :: dictSet key v rest

/-- One wrapper invocation: cancel the not-yet-done predecessor stored for the
key, schedule a fresh task at `now + delay`, store it under the key.  The
replaced task object moves to `retired`. -/
def submit {α : Type} (delay : ℕ) (key : String) (payload : α) (s : DebState α) :
    DebState α :=
  let newTask : DebTask α :=
    { key := key, fireAt := s.now + delay, payload := payload
      cancelled := false, fired := false }
  match dictGet key s.slots with
  | none =>
      { now := s.now, slots := dictSet key newTask s.slots, retired := s.retired }
  | some prev =>
      { now := s.now, slots := dictSet key newTask s.slots
        retired := s.retired ++ [prev.cancel] }

/-- Advance the clock to `t` (monotonically); every live task whose fire time
has been reached fires. -/
def advanceTo {α : Type} (t : ℕ) (s : DebState α) : DebState α :=
  { now := max s.now t
    slots := s.slots.map (fun p => (p.1, fireDue (max s.now t) p.2))
    retired := s.retired.map (fireDue (max s.now t)) }

/-- An external event acting on the debounce state: a wrapper invocation for
some key, or the passage of time. -/
inductive DebEvent (α : Type) : Type where
  | submit (key : String) (payload : α)
  | advanceTo (t : ℕ)
deriving DecidableEq, Repr

/-- Step of the event semantics. -/
def stepDeb {α : Type} (delay : ℕ) (s : DebState α) : DebEvent α → DebState α
  | DebEvent.submit key payload => submit delay key payload s
  | DebEvent.advanceTo t => advanceTo t s

/-- Run a list of events from the initial state. -/
def runDeb {α : Type} (delay : ℕ) (evs : List (DebEvent α)) : DebState α :=
  evs.foldl (stepDeb delay) (DebState.init α)

/-- Every task the machinery has ever created in a state. -/
def allTasks {α : Type} (s : DebState α) : List (DebTask α) :=
  s.retired ++ s.slots.map Prod.snd

/-- The live tasks carrying a given key. -/
def liveTasksFor {α : Type} (key : String) (s : DebState α) : List (DebTask α) :=
  (allTasks s).filter (fun t => t.key = key ∧ t.live)

/-- The payloads whose work has actually run, in task-creation order. -/
def firedPayloads {α : Type} (s : DebState α) : List α :=
  ((allTasks s).filter (fun t => t.fired)).map DebTask.payload

/-- The wrapper itself, as its caller sees it: it mutates the debounce state
and returns `None`.  It never awaits the task it creates, so no exception of
the wrapped method can reach the caller through it. -/
def wrapperCall {α : Type} (delay : ℕ) (key : String) (payload : α)
    (s : DebState α) : DebState α × Py Unit :=
  (submit delay key payload s, Py.ok ())

/-- Outcome recorded in a task whose payload is the wrapped method's own
result: a fired task holds exactly that result (`delayed()` re-raises anything
but `CancelledError`); a cancelled task finishes silently (the handler catches
`CancelledError` and returns); an unfired, uncancelled task has no outcome yet. -/
def taskOutcome (t : DebTask (Py Unit)) : Option (Py Unit) :=
  if t.fired then some t.payload
  else if t.cancelled then some (Py.ok ()) else none

/-- Run a list of events, also collecting the value each wrapper invocation
returns to its caller. -/
def runDebOutputs {α : Type} (delay : ℕ) (evs : List (DebEvent α)) :
    DebState α × List (Py Unit) :=
  evs.foldl
    (fun acc e =>
      match e with
      | DebEvent.submit key payload =>
          ((wrapperCall delay key payload acc.1).1,
            acc.2 ++ [(wrapperCall delay key payload acc.1).2])
      | DebEvent.advanceTo t => (advanceTo t acc.1, acc.2))
    (DebState.init α, [])

/-- Two consecutive submissions are rapid when they are ordered in time and
the second arrives before the first one's debounce delay has elapsed. -/
def rapid (delay : ℕ) (p q : ℕ × ℚ) : Prop :=
  p.1 ≤ q.1 ∧ q.1 < p.1 + delay

/-- The event trace of a burst: for each timed submission, advance the clock
to its arrival time and invoke the wrapper; finally advance to `tEnd`. -/
def burstEvents (key : String) (subs : List (ℕ × ℚ)) (tEnd : ℕ) :
    List (DebEvent ℚ) :=
  subs.flatMap (fun p => [DebEvent.advanceTo p.1, DebEvent.submit key p.2]) ++
    [DebEvent.advanceTo tEnd]

/-- Debounce state after a burst of `set_temperature` submissions followed by a
quiet period up to `tEnd`, with the 5-second delay used by climate.py. -/
def burstState (subs : List (ℕ × ℚ)) (tEnd : ℕ) : DebState ℚ :=
  runDeb 5 (burstEvents "set_temperature" subs tEnd)

/-- The last submission of a burst (`p₀` first, then `rest`). -/
def lastSub (p₀ : ℕ × ℚ) (rest : List (ℕ × ℚ)) : ℕ × ℚ :=
  rest.getLastD p₀

/-- A remote call is a set-setpoint call carrying value `v` when it is a
temporary-override or set-manual call with that temperature. -/
def isSetSetpointCall (c : RemoteCall) (v : ℚ) : Bool :=
  match c with
  | RemoteCall.setTemporaryOverride _ t => t == v
  | RemoteCall.setManual _ t => t == v
  | _ => false

/-- The task the wrapper creates for a timed submission `p = (arrival, value)`
with the 5-second delay: scheduled for `arrival + 5`, neither cancelled nor
fired. -/
def pendingTask (key : String) (p : ℕ × ℚ) : DebTask ℚ :=
  { key := key, fireAt := p.1 + 5, payload := p.2, cancelled := false, fired := false }

/-- The task of a superseded submission after its successor cancelled it. -/
def supersededTask (key : String) (p : ℕ × ℚ) : DebTask ℚ :=
  { key := key, fireAt := p.1 + 5, payload := p.2, cancelled := true, fired := false }

/-- The task of a submission whose delayed work has run. -/
def firedTask (key : String) (p : ℕ × ℚ) : DebTask ℚ :=
  { key := key, fireAt := p.1 + 5, payload := p.2, cancelled := false, fired := true }

/-- Invariant of the debounce state used to bound live tasks per key: replaced
task objects are never live, the `_debounce_tasks` dict has pairwise distinct
keys, and each stored task carries the key it is stored under. -/
def goodState {α : Type} (s : DebState α) : Prop :=
  (∀ t ∈ s.retired, t.live = false) ∧
  s.slots.Pairwise (fun p q => p.1 ≠ q.1) ∧
  (∀ p ∈ s.slots, (Prod.snd p).key = p.1)

/-- C8: translating each abstract mode in Off, Heat, Auto to a climate-zone
vendor string and back is the identity, while the vendor string
TemporaryOverride does not survive the reverse direction (it comes back as
Scheduling), matching the documented lossy case. -/
theorem C8_climate_mode_round_trip :
    roundTripClimateMode HVACMode.off = some HVACMode.off ∧
    roundTripClimateMode HVACMode.heat = some HVACMode.heat ∧
    roundTripClimateMode HVACMode.auto = some HVACMode.auto ∧
    roundTripClimateVendor "TemporaryOverride" = some "Scheduling" ∧
    roundTripClimateVendor "TemporaryOverride" ≠ some "TemporaryOverride" := by
  refine ⟨rfl, rfl, rfl, rfl, ?_⟩
  decide

/-! Invariant lemmas for the debounce machinery. -/

theorem DebTask.live_cancel {α : Type} (t : DebTask α) : t.cancel.live = false := by
  obtain ⟨k, fa, pl, c, fr⟩ := t
  cases c <;> cases fr <;> simp [DebTask.cancel, DebTask.done, DebTask.live]

theorem fireDue_key {α : Type} (n : ℕ) (t : DebTask α) : (fireDue n t).key = t.key := by
  unfold fireDue
  split <;> rfl

theorem fireDue_of_dead {α : Type} (n : ℕ) (t : DebTask α) (h : t.live = false) :
    fireDue n t = t := by
  unfold fireDue
  rw [if_neg]
  simp [h]

theorem fireDue_dead {α : Type} (n : ℕ) (t : DebTask α) (h : t.live = false) :
    (fireDue n t).live = false := by
  rw [fireDue_of_dead n t h]
  exact h

theorem dictSet_mem {β : Type} (key : String) (v : β) :
    ∀ (l : List (String × β)) (q : String × β),
      q ∈ dictSet key v l → q = (key, v) ∨ q ∈ l := by
  intro l
  induction l with
  | nil =>
    intro q hq
    simp [dictSet] at hq
    exact Or.inl hq
  | cons p rest ih =>
    intro q hq
    by_cases hp : p.1 = key
    · simp [dictSet, hp] at hq
      rcases hq with hq | hq
      · exact Or.inl (by simp [hq])
      · exact Or.inr (List.mem_cons_of_mem p hq)
    · simp [dictSet, hp] at hq
      rcases hq with hq | hq
      · exact Or.inr (by simp [hq])
      · rcases ih q hq with h | h
        · exact Or.inl h
        · exact Or.inr (List.mem_cons_of_mem p h)

theorem dictSet_pairwise {β : Type} (key : String) (v : β) :
    ∀ l : List (String × β),
      l.Pairwise (fun p q => p.1 ≠ q.1) →
      (dictSet key v l).Pairwise (fun p q => p.1 ≠ q.1) := by
  intro l
  induction l with
  | nil =>
    intro _
    simp [dictSet]
  | cons p rest ih =>
    intro hpw
    rw [List.pairwise_cons] at hpw
    obtain ⟨hhead, htail⟩ := hpw
    by_cases hp : p.1 = key
    · have hset : dictSet key v (p :: rest) = (key, v) :: rest := by
        simp [dictSet, hp]
      rw [hset, List.pairwise_cons]
      exact ⟨fun q hq => hp ▸ hhead q hq, htail⟩
    · have hset : dictSet key v (p :: rest) = p :: dictSet key v rest := by
        simp [dictSet, hp]
      rw [hset, List.pairwise_cons]
      refine ⟨fun q hq => ?_, ih htail⟩
      rcases dictSet_mem key v rest q hq with h | h
      · rw [h]
        exact hp
      · exact hhead q h

theorem goodState_init (α : Type) : goodState (DebState.init α) := by
  refine ⟨?_, ?_, ?_⟩ <;> simp [DebState.init, goodState]

theorem goodState_advanceTo {α : Type} (t : ℕ) (s : DebState α)
    (h : goodState s) : goodState (advanceTo t s) := by
  obtain ⟨hret, hpair, hkeys⟩ := h
  refine ⟨?_, ?_, ?_⟩
  · intro u hu
    simp only [advanceTo, List.mem_map] at hu
    obtain ⟨w, hw, rfl⟩ := hu
    exact fireDue_dead _ w (hret w hw)
  · simp only [advanceTo]
    exact List.Pairwise.map _ (fun a b hab => hab) hpair
  · intro p hp
    simp only [advanceTo, List.mem_map] at hp
    obtain ⟨q, hq, rfl⟩ := hp
    simpa [fireDue_key] using hkeys q hq

theorem goodState_submit {α : Type} (delay : ℕ) (key : String) (payload : α)
    (s : DebState α) (h : goodState s) : goodState (submit delay key payload s) := by
  obtain ⟨hret, hpair, hkeys⟩ := h
  unfold submit
  have hslots :
      ∀ p ∈ dictSet key
          ({ key := key, fireAt := s.now + delay, payload := payload,
             cancelled := false, fired := false } : DebTask α) s.slots,
        (Prod.snd p).key = p.1 := by
    intro p hp
    rcases dictSet_mem _ _ _ p hp with hq | hq
    · rw [hq]
    · exact hkeys p hq
  cases hg : dictGet key s.slots with
  | none =>
    exact ⟨hret, dictSet_pairwise _ _ _ hpair, hslots⟩
  | some prev =>
    refine ⟨?_, dictSet_pairwise _ _ _ hpair, hslots⟩
    intro u hu
    rcases List.mem_append.mp hu with hu | hu
    · exact hret u hu
    · rw [List.mem_singleton.mp hu]
      exact DebTask.live_cancel prev

theorem goodState_runDeb {α : Type} (delay : ℕ) (evs : List (DebEvent α)) :
    goodState (runDeb delay evs) := by
  unfold runDeb
  have main : ∀ (l : List (DebEvent α)) (s : DebState α),
      goodState s → goodState (l.foldl (stepDeb delay) s) := by
    intro l
    induction l with
    | nil => intro s hs; exact hs
    | cons e rest ih =>
      intro s hs
      refine ih _ ?_
      cases e with
      | submit k p => exact goodState_submit delay k p s hs
      | advanceTo t => exact goodState_advanceTo t s hs
  exact main evs _ (goodState_init α)

theorem slots_live_filter_le_one {α : Type} (key : String) :
    ∀ l : List (String × DebTask α),
      l.Pairwise (fun p q => p.1 ≠ q.1) →
      (∀ p ∈ l, (Prod.snd p).key = p.1) →
      ((l.map Prod.snd).filter (fun t => t.key = key ∧ t.live)).length ≤ 1 := by
  intro l
  induction l with
  | nil => simp
  | cons p rest ih =>
    intro hpw hk
    rw [List.pairwise_cons] at hpw
    obtain ⟨hhead, htail⟩ := hpw
    rw [List.map_cons, List.filter_cons]
    by_cases hc : p.2.key = key ∧ p.2.live
    · have hrest : (rest.map Prod.snd).filter (fun t => t.key = key ∧ t.live) = [] := by
        rw [List.filter_eq_nil_iff]
        intro t ht
        rw [List.mem_map] at ht
        obtain ⟨q, hq, rfl⟩ := ht
        have h1 : q.2.key = q.1 := hk q (List.mem_cons_of_mem p hq)
        have h2 : p.1 ≠ q.1 := hhead q hq
        have h3 : p.2.key = p.1 := hk p (List.mem_cons_self p rest)
        simp only [decide_eq_true_eq]
        intro hcq
        apply h2
        rw [← h3, hc.1, ← hcq.1, h1]
      rw [if_pos (by simpa using hc), hrest]
      simp
    · rw [if_neg (by simpa using hc)]
      exact ih htail (fun q hq => hk q (List.mem_cons_of_mem p hq))

theorem liveFor_count_le_one {α : Type} (key : String) (s : DebState α)
    (h : goodState s) : (liveTasksFor key s).length ≤ 1 := by
  obtain ⟨hret, hpair, hkeys⟩ := h
  unfold liveTasksFor allTasks
  rw [List.filter_append]
  have h1 : s.retired.filter (fun t => t.key = key ∧ t.live) = [] := by
    rw [List.filter_eq_nil_iff]
    intro t ht
    simp [hret t ht]
  rw [h1, List.nil_append]
  exact slots_live_filter_le_one key s.slots hpair hkeys

/-- C9: in every state reachable by any sequence of wrapper invocations and
clock advances, each `(entity instance, action-kind)` key has at most one live
(scheduled, uncancelled, unfired) debounce task: a submission always cancels
the pending predecessor stored for its key before storing its own task. -/
theorem C9_at_most_one_live_task {α : Type} (delay : ℕ) (evs : List (DebEvent α))
    (key : String) : (liveTasksFor key (runDeb delay evs)).length ≤ 1 :=
  liveFor_count_le_one key _ (goodState_runDeb delay evs)

/-! Lemmas describing a rapid burst of submissions for one key. -/

theorem map_fireDue_dead {α : Type} (n : ℕ) (dead : List (DebTask α))
    (h : ∀ u ∈ dead, u.cancelled = true ∧ u.fired = false) :
    dead.map (fireDue n) = dead := by
  induction dead with
  | nil => rfl
  | cons u rest ih =>
    have hu := h u (List.mem_cons_self u rest)
    rw [List.map_cons, fireDue_of_dead n u (by simp [DebTask.live, hu.1]),
      ih (fun w hw => h w (List.mem_cons_of_mem u hw))]

theorem fireDue_pending_early (n : ℕ) (key : String) (p : ℕ × ℚ)
    (h : ¬(p.1 + 5 ≤ n)) : fireDue n (pendingTask key p) = pendingTask key p := by
  unfold fireDue
  rw [if_neg]
  intro hcond
  exact h hcond.2

theorem fireDue_pending_fire (n : ℕ) (key : String) (p : ℕ × ℚ)
    (h : p.1 + 5 ≤ n) : fireDue n (pendingTask key p) = firedTask key p := by
  unfold fireDue
  rw [if_pos]
  · rfl
  · exact ⟨by simp [pendingTask, DebTask.live], h⟩

theorem cancel_pending (key : String) (p : ℕ × ℚ) :
    (pendingTask key p).cancel = supersededTask key p := by
  unfold DebTask.cancel
  rw [if_neg]
  · rfl
  · simp [pendingTask, DebTask.done]

theorem submit_empty (key : String) (q : ℕ × ℚ) :
    submit 5 key q.2 { now := q.1, slots := [], retired := [] } =
      { now := q.1, slots := [(key, pendingTask key q)], retired := [] } := by
  simp [submit, dictGet, dictSet, pendingTask]

theorem submit_replaces (key : String) (q : ℕ × ℚ) (T : DebTask ℚ)
    (dead : List (DebTask ℚ)) :
    submit 5 key q.2 { now := q.1, slots := [(key, T)], retired := dead } =
      { now := q.1, slots := [(key, pendingTask key q)],
        retired := dead ++ [T.cancel] } := by
  simp [submit, dictGet, dictSet, pendingTask]

theorem advanceTo_mk {α : Type} (t n : ℕ) (sl : List (String × DebTask α))
    (r : List (DebTask α)) :
    advanceTo t { now := n, slots := sl, retired := r } =
      { now := max n t
        slots := sl.map (fun p => (p.1, fireDue (max n t) p.2))
        retired := r.map (fireDue (max n t)) } :=
  rfl

theorem advanceTo_pending (p : ℕ × ℚ) (n : ℕ) (key : String)
    (dead : List (DebTask ℚ))
    (hdead : ∀ u ∈ dead, u.cancelled = true ∧ u.fired = false)
    (hle : p.1 ≤ n) (hlt : ¬(p.1 + 5 ≤ n)) :
    advanceTo n { now := p.1, slots := [(key, pendingTask key p)], retired := dead } =
      { now := n, slots := [(key, pendingTask key p)], retired := dead } := by
  rw [advanceTo_mk, Nat.max_eq_right hle, map_fireDue_dead n dead hdead]
  simp only [List.map_cons, List.map_nil]
  rw [fireDue_pending_early n key p hlt]

theorem superseded_dead (key : String) (l : List (ℕ × ℚ)) :
    ∀ u ∈ l.map (supersededTask key), u.cancelled = true ∧ u.fired = false := by
  intro u hu
  rw [List.mem_map] at hu
  obtain ⟨p, _, rfl⟩ := hu
  exact ⟨rfl, rfl⟩

theorem burst_loop (key : String) (rest : List (ℕ × ℚ)) :
    ∀ (p₀ : ℕ × ℚ) (dead : List (DebTask ℚ)),
      List.Chain (rapid 5) p₀ rest →
      (∀ u ∈ dead, u.cancelled = true ∧ u.fired = false) →
      (rest.flatMap (fun p => [DebEvent.advanceTo p.1, DebEvent.submit key p.2])).foldl
          (stepDeb 5)
          { now := p₀.1, slots := [(key, pendingTask key p₀)], retired := dead } =
        { now := (lastSub p₀ rest).1,
          slots := [(key, pendingTask key (lastSub p₀ rest))],
          retired := dead ++ ((p₀ :: rest).dropLast.map (supersededTask key)) } := by
  induction rest with
  | nil =>
    intro p₀ dead _ _
    simp [lastSub]
  | cons q rest' ih =>
    intro p₀ dead hchain hdead
    rw [List.chain_cons] at hchain
    obtain ⟨hr, hchain'⟩ := hchain
    rw [List.flatMap_cons, List.foldl_append]
    have hsteps :
        ([DebEvent.advanceTo q.1, DebEvent.submit key q.2].foldl (stepDeb 5)
          { now := p₀.1, slots := [(key, pendingTask key p₀)], retired := dead }
          : DebState ℚ) =
        { now := q.1, slots := [(key, pendingTask key q)],
          retired := dead ++ [supersededTask key p₀] } := by
      rw [List.foldl_cons, List.foldl_cons, List.foldl_nil]
      show submit 5 key q.2
        (advanceTo q.1
          { now := p₀.1, slots := [(key, pendingTask key p₀)], retired := dead }) = _
      rw [advanceTo_pending p₀ q.1 key dead hdead hr.1 (Nat.not_le.mpr hr.2),
        submit_replaces key q (pendingTask key p₀) dead, cancel_pending]
    rw [hsteps,
      ih q (dead ++ [supersededTask key p₀]) hchain'
        (by
          intro u hu
          rcases List.mem_append.mp hu with hu | hu
          · exact hdead u hu
          · rw [List.mem_singleton.mp hu]
            exact ⟨rfl, rfl⟩)]
    have hlast : lastSub p₀ (q :: rest') = lastSub q rest' := by
      unfold lastSub
      exact List.getLastD_cons p₀ q rest'
    have hdrop : ((p₀ :: q :: rest').dropLast.map (supersededTask key)) =
        supersededTask key p₀ :: ((q :: rest').dropLast.map (supersededTask key)) := by
      rw [List.dropLast_cons₂, List.map_cons]
    rw [hlast, hdrop]
    simp [List.append_assoc]

theorem burst_run (key : String) (p₀ : ℕ × ℚ) (rest : List (ℕ × ℚ)) (tEnd : ℕ)
    (hchain : List.Chain (rapid 5) p₀ rest)
    (hend : (lastSub p₀ rest).1 + 5 ≤ tEnd) :
    runDeb 5 (burstEvents key (p₀ :: rest) tEnd) =
      { now := tEnd,
        slots := [(key, firedTask key (lastSub p₀ rest))],
        retired := (p₀ :: rest).dropLast.map (supersededTask key) } := by
  unfold runDeb burstEvents
  rw [List.foldl_append, List.flatMap_cons, List.foldl_append]
  have hinit :
      ([DebEvent.advanceTo p₀.1, DebEvent.submit key p₀.2].foldl (stepDeb 5)
        (DebState.init ℚ) : DebState ℚ) =
      { now := p₀.1, slots := [(key, pendingTask key p₀)], retired := [] } := by
    rw [List.foldl_cons, List.foldl_cons, List.foldl_nil]
    show submit 5 key p₀.2 (advanceTo p₀.1 (DebState.init ℚ)) = _
    have hadv : advanceTo p₀.1 (DebState.init ℚ) =
        { now := p₀.1, slots := [], retired := [] } := by
      simp [advanceTo, DebState.init]
    rw [hadv, submit_empty]
  rw [hinit, burst_loop key rest p₀ [] hchain (by simp), List.nil_append]
  have hnow : (lastSub p₀ rest).1 ≤ tEnd :=
    le_trans (Nat.le_add_right _ 5) hend
  rw [List.foldl_cons, List.foldl_nil]
  show advanceTo tEnd _ = _
  rw [advanceTo_mk, Nat.max_eq_right hnow,
    map_fireDue_dead tEnd _ (superseded_dead key _)]
  simp only [List.map_cons, List.map_nil]
  rw [fireDue_pending_fire tEnd key (lastSub p₀ rest) hend]

/-- C1: for every climate zone whose cached mode reads Auto or Heat (the only
modes in which the facade submits `set_temperature` work at all — in Off it
returns before submitting), and every burst of rapid `set_temperature`
submissions in which each submission arrives before the previous one's
5-second debounce delay has elapsed, once the burst settles exactly the last
submission's work has run, every superseded submission is cancelled without
its work ever running, and exactly one remote set-setpoint call is made,
carrying the temperature of the last submission. -/
theorem C1_debounced_burst_single_setpoint_call (zoneId : String)
    (z : ClimateZoneData) (p₀ : ℕ × ℚ) (rest : List (ℕ × ℚ)) (tEnd : ℕ)
    (hchain : List.Chain (rapid 5) p₀ rest)
    (hend : (lastSub p₀ rest).1 + 5 ≤ tEnd)
    (hm : ClimatePy.ClimateEntity.hvac_mode z = some HVACMode.auto ∨
          ClimatePy.ClimateEntity.hvac_mode z = some HVACMode.heat) :
    firedPayloads (burstState (p₀ :: rest) tEnd) = [(lastSub p₀ rest).2] ∧
    (∀ u ∈ (burstState (p₀ :: rest) tEnd).retired,
        u.cancelled = true ∧ u.fired = false) ∧
    (∃ c : RemoteCall,
      (firedPayloads (burstState (p₀ :: rest) tEnd)).flatMap
          (ClimatePy.ClimateEntity.set_temperature zoneId z) = [c] ∧
      isSetSetpointCall c (lastSub p₀ rest).2 = true) := by
  have hfin := burst_run "set_temperature" p₀ rest tEnd hchain hend
  have hfp : firedPayloads
      ({ now := tEnd,
         slots := [("set_temperature", firedTask "set_temperature" (lastSub p₀ rest))],
         retired := (p₀ :: rest).dropLast.map (supersededTask "set_temperature") } :
        DebState ℚ) = [(lastSub p₀ rest).2] := by
    unfold firedPayloads allTasks
    rw [List.filter_append]
    have h1 : ((p₀ :: rest).dropLast.map (supersededTask "set_temperature")).filter
        (fun t => t.fired) = [] := by
      rw [List.filter_eq_nil_iff]
      intro t ht
      obtain ⟨p, _, rfl⟩ := List.mem_map.mp ht
      simp [supersededTask]
    rw [h1, List.nil_append]
    simp [firedTask]
  unfold burstState
  rw [hfin]
  refine ⟨hfp, superseded_dead _ _, ?_⟩
  rw [hfp]
  rcases hm with hm | hm
  · refine ⟨RemoteCall.setTemporaryOverride zoneId (lastSub p₀ rest).2, ?_, ?_⟩
    · simp [ClimatePy.ClimateEntity.set_temperature, hm]
    · simp [isSetSetpointCall]
  · refine ⟨RemoteCall.setManual zoneId (lastSub p₀ rest).2, ?_, ?_⟩
    · simp [ClimatePy.ClimateEntity.set_temperature, hm]
    · simp [isSetSetpointCall]

/-- Witness for C1: three rapid submissions (times 0, 1, 2; values 21.5, 22,
22.5) to a climate zone cached in Manual (Heat) mode, with quiet time up to 10;
the burst fires once, with the single set-manual call carrying 22.5. -/
theorem C1_witness :
    List.Chain (rapid 5) ((0 : ℕ), (43 / 2 : ℚ)) [(1, 22), (2, 45 / 2)] ∧
    (lastSub (0, 43 / 2) [(1, 22), (2, 45 / 2)]).1 + 5 ≤ 10 ∧
    ClimatePy.ClimateEntity.hvac_mode
      { roomTemperature := 20, setPoint := 21, setPointMin := 5, setPointMax := 30,
        zoneMode := some "Manual", activeComfortDemand := "Idle",
        activeHeatingClimateTimeProgramNumber := 1 } = some HVACMode.heat ∧
    (firedPayloads (burstState ((0, 43 / 2) :: [(1, 22), (2, 45 / 2)]) 10) =
        [(lastSub (0, 43 / 2) [(1, 22), (2, 45 / 2)]).2] ∧
      (∀ u ∈ (burstState ((0, 43 / 2) :: [(1, 22), (2, 45 / 2)]) 10).retired,
          u.cancelled = true ∧ u.fired = false) ∧
      (∃ c : RemoteCall,
        (firedPayloads (burstState ((0, 43 / 2) :: [(1, 22), (2, 45 / 2)]) 10)).flatMap
            (ClimatePy.ClimateEntity.set_temperature "zone1"
              { roomTemperature := 20, setPoint := 21, setPointMin := 5, setPointMax := 30,
                zoneMode := some "Manual", activeComfortDemand := "Idle",
                activeHeatingClimateTimeProgramNumber := 1 }) = [c] ∧
        isSetSetpointCall c (lastSub (0, 43 / 2) [(1, 22), (2, 45 / 2)]).2 = true)) := by
  have hchain : List.Chain (rapid 5) ((0 : ℕ), (43 / 2 : ℚ)) [(1, 22), (2, 45 / 2)] := by
    refine List.Chain.cons ?_ (List.Chain.cons ?_ List.Chain.nil)
    · unfold rapid
      exact ⟨by decide, by decide⟩
    · unfold rapid
      exact ⟨by decide, by decide⟩
  have hend : (lastSub (0, 43 / 2) [(1, 22), (2, 45 / 2)]).1 + 5 ≤ 10 := by decide
  have hm : ClimatePy.ClimateEntity.hvac_mode
      { roomTemperature := 20, setPoint := 21, setPointMin := 5, setPointMax := 30,
        zoneMode := some "Manual", activeComfortDemand := "Idle",
        activeHeatingClimateTimeProgramNumber := 1 } = some HVACMode.heat := by decide
  exact ⟨hchain, hend, hm,
    C1_debounced_burst_single_setpoint_call "zone1" _ (0, 43 / 2) [(1, 22), (2, 45 / 2)] 10
      hchain hend (Or.inr hm)⟩

/-- C7 counterexample: a debounced `set_temperature` whose work fails with a
remote-call error.  The wrapper invocation returns `None` (no error) to its
caller — the claimed propagation to the call site does not happen — while the
failure is recorded only in the fired task, which nobody awaits. -/
theorem C7_counterexample_error_stays_in_task :
    (wrapperCall 5 "set_temperature" (Py.raised PyError.remoteCallFailed)
        (DebState.init (Py Unit))).2 = Py.ok () ∧
    (wrapperCall 5 "set_temperature" (Py.raised PyError.remoteCallFailed)
        (DebState.init (Py Unit))).2 ≠ Py.raised PyError.remoteCallFailed ∧
    ((advanceTo 10 (wrapperCall 5 "set_temperature"
        (Py.raised PyError.remoteCallFailed) (DebState.init (Py Unit))).1).slots.map
      (fun p => taskOutcome p.2)) = [some (Py.raised PyError.remoteCallFailed)] := by
  refine ⟨rfl, by decide, ?_⟩
  decide

/-- C7 as amended: the debounce coordinator neither retries nor swallows a
failure of fired work — a fired task records exactly the work's own result —
but the failure is not delivered to the caller of the write operation: over
every run, every value a wrapper invocation returns to its caller is `None`,
because the wrapper never awaits the task it schedules. -/
theorem C7_amended_failure_stays_in_task :
    (∀ (α : Type) (delay : ℕ) (evs : List (DebEvent α)),
        ((runDebOutputs delay evs).2).all (fun r => r == Py.ok ()) = true) ∧
    (∀ (delay : ℕ) (evs : List (DebEvent (Py Unit))) (t : DebTask (Py Unit)),
        t ∈ allTasks (runDeb delay evs) → t.fired = true →
        taskOutcome t = some t.payload) := by
  constructor
  · intro α delay evs
    unfold runDebOutputs
    have main : ∀ (l : List (DebEvent α)) (acc : DebState α × List (Py Unit)),
        acc.2.all (fun r => r == Py.ok ()) = true →
        (l.foldl (fun acc e =>
          match e with
          | DebEvent.submit key payload =>
              ((wrapperCall delay key payload acc.1).1,
                acc.2 ++ [(wrapperCall delay key payload acc.1).2])
          | DebEvent.advanceTo t => (advanceTo t acc.1, acc.2)) acc).2.all
          (fun r => r == Py.ok ()) = true := by
      intro l
      induction l with
      | nil => intro acc h; exact h
      | cons e rest ih =>
        intro acc h
        rw [List.foldl_cons]
        cases e with
        | submit k p =>
          apply ih
          simp only [wrapperCall, List.all_append, h, Bool.true_and, List.all_cons,
            List.all_nil, Bool.and_true]
          exact beq_self_eq_true _
        | advanceTo t => exact ih _ h
    exact main evs _ rfl
  · intro delay evs t _ hf
    unfold taskOutcome
    rw [if_pos hf]

/-- Witness for C7 as amended: one failing submission at time 0 that fires at
time 5 (observed at time 9): the caller-visible outputs are all `None`, and the
fired task records exactly the remote-call failure. -/
theorem C7_amended_witness :
    ((runDebOutputs 5 [DebEvent.submit "set_temperature"
        ((Py.raised PyError.remoteCallFailed : Py Unit)), DebEvent.advanceTo 9]).2).all
      (fun r => r == Py.ok ()) = true ∧
    ({ key := "set_temperature", fireAt := 5,
       payload := Py.raised PyError.remoteCallFailed,
       cancelled := false, fired := true } : DebTask (Py Unit)) ∈
      allTasks (runDeb 5 [DebEvent.submit "set_temperature"
        ((Py.raised PyError.remoteCallFailed : Py Unit)), DebEvent.advanceTo 9]) ∧
    taskOutcome
      ({ key := "set_temperature", fireAt := 5,
         payload := Py.raised PyError.remoteCallFailed,
         cancelled := false, fired := true } : DebTask (Py Unit)) =
      some (Py.raised PyError.remoteCallFailed) :=
  ⟨C7_amended_failure_stays_in_task.1 (Py Unit) 5 _,
    by decide,
    C7_amended_failure_stays_in_task.2 5
      [DebEvent.submit "set_temperature" ((Py.raised PyError.remoteCallFailed : Py Unit)),
        DebEvent.advanceTo 9] _ (by decide) rfl⟩

/-- C2 (evaluation of the code at the failing input): a climate zone cached in
Auto (vendor string Scheduling) with active program 2 receives
`setPreset("clock_program_1")`.  The facade overlays mode Auto and program 1
and blocks updates for 60 s as claimed, but the debounced work, once fired,
makes the single activate-time-program call with index 1 and then raises
`TypeError` — the guard compares against `HVACMode.AUTO()`, calling the enum
member — instead of completing without error. -/
theorem C2_preset_work_raises_typeerror :
    ClimatePy.ClimateEntity.async_set_preset_mode 0 { suppressUntil := 0 }
      { roomTemperature := 20, setPoint := 21, setPointMin := 5, setPointMax := 30,
        zoneMode := some "Scheduling", activeComfortDemand := "Idle",
        activeHeatingClimateTimeProgramNumber := 2 } "clock_program_1" =
      { data :=
          { roomTemperature := 20, setPoint := 21, setPointMin := 5, setPointMax := 30,
            zoneMode := some "Scheduling", activeComfortDemand := "Idle",
            activeHeatingClimateTimeProgramNumber := 1 },
        coord := { suppressUntil := 60 },
        submitted := some (1, some HVACMode.auto) } ∧
    ClimatePy.ClimateEntity.activate_heating_time_program "zone1" 1 (some HVACMode.auto) =
      ([RemoteCall.activateHeatingTimeProgram "zone1" 1], Py.raised PyError.typeError) := by
  exact ⟨by decide, rfl⟩

/-- C3 counterexample: on the hot_water.py entity, `setMode(COOL)` — a mode
outside Off/Heat/Auto — does raise the unsupported-mode error and makes no
remote call, but it does NOT leave the cached state unchanged: the overlay
field `dhwZoneMode` is overwritten with `None` before the rejection. -/
theorem C3_counterexample_overlay_written_before_reject :
    (HotWaterPy.HotWaterEntity.async_set_hvac_mode "zone1" 0 ⟨0⟩
        ⟨50, 55, 65, some "Scheduling", "Idle", 1, 60⟩ HVACMode.cool).outcome =
      Py.raised PyError.notImplementedError ∧
    (HotWaterPy.HotWaterEntity.async_set_hvac_mode "zone1" 0 ⟨0⟩
        ⟨50, 55, 65, some "Scheduling", "Idle", 1, 60⟩ HVACMode.cool).calls = [] ∧
    (HotWaterPy.HotWaterEntity.async_set_hvac_mode "zone1" 0 ⟨0⟩
        ⟨50, 55, 65, some "Scheduling", "Idle", 1, 60⟩ HVACMode.cool).data.dhwZoneMode =
      none ∧
    (HotWaterPy.HotWaterEntity.async_set_hvac_mode "zone1" 0 ⟨0⟩
        ⟨50, 55, 65, some "Scheduling", "Idle", 1, 60⟩ HVACMode.cool).data ≠
      ⟨50, 55, 65, some "Scheduling", "Idle", 1, 60⟩ := by
  decide

/-- C3 as amended: for every mode outside Off/Heat/Auto, all three entities
raise `NotImplementedError` and make no remote call; the climate.py entities
(climate zone and hot-water zone) leave the cached state untouched, while the
hot_water.py entity first overwrites `dhwZoneMode` with `None` (the result of
the `.get` miss) and only then raises. -/
theorem C3_amended_unsupported_mode (m : HVACMode)
    (hm : m ∉ ClimatePy.ClimateEntity.hvac_modes) (zoneId : String) (now : ℕ)
    (c : Coordinator) (z : ClimateZoneData) (zh : HotWaterZoneData) :
    ClimatePy.ClimateEntity.async_set_hvac_mode zoneId now c z m =
      ⟨z, c, [], Py.raised PyError.notImplementedError⟩ ∧
    ClimatePy.HotWaterEntity.async_set_hvac_mode zoneId now c zh m =
      ⟨zh, c, [], Py.raised PyError.notImplementedError⟩ ∧
    HotWaterPy.HotWaterEntity.async_set_hvac_mode zoneId now c zh m =
      ⟨{ zh with dhwZoneMode := none }, c, [], Py.raised PyError.notImplementedError⟩ := by
  cases m <;> first
    | exact absurd (by decide) hm
    | exact ⟨rfl, rfl, rfl⟩

/-- Witness for C3 as amended, at mode COOL and concrete zones. -/
theorem C3_amended_witness :
    HVACMode.cool ∉ ClimatePy.ClimateEntity.hvac_modes ∧
    (ClimatePy.ClimateEntity.async_set_hvac_mode "zone1" 0 ⟨0⟩
        ⟨20, 21, 5, 30, some "Scheduling", "Idle", 2⟩ HVACMode.cool =
      ⟨⟨20, 21, 5, 30, some "Scheduling", "Idle", 2⟩, ⟨0⟩, [],
        Py.raised PyError.notImplementedError⟩ ∧
    ClimatePy.HotWaterEntity.async_set_hvac_mode "zone1" 0 ⟨0⟩
        ⟨50, 55, 65, some "Scheduling", "Idle", 1, 60⟩ HVACMode.cool =
      ⟨⟨50, 55, 65, some "Scheduling", "Idle", 1, 60⟩, ⟨0⟩, [],
        Py.raised PyError.notImplementedError⟩ ∧
    HotWaterPy.HotWaterEntity.async_set_hvac_mode "zone1" 0 ⟨0⟩
        ⟨50, 55, 65, some "Scheduling", "Idle", 1, 60⟩ HVACMode.cool =
      ⟨{ (⟨50, 55, 65, some "Scheduling", "Idle", 1, 60⟩ : HotWaterZoneData) with
          dhwZoneMode := none }, ⟨0⟩, [], Py.raised PyError.notImplementedError⟩) :=
  ⟨by decide,
    C3_amended_unsupported_mode HVACMode.cool (by decide) "zone1" 0 ⟨0⟩
      ⟨20, 21, 5, 30, some "Scheduling", "Idle", 2⟩
      ⟨50, 55, 65, some "Scheduling", "Idle", 1, 60⟩⟩

/-- C4 counterexample: the hot-water entity of hot_water.py does not translate
the vendor string ContinuousComfort to Heat — its forward map has no entry for
it at all, and its reverse map sends Heat to Manual, not ContinuousComfort. -/
theorem C4_counterexample_hot_water_file_vocabulary :
    HotWaterPy.REMEHA_MODE_TO_HVAC_MODE "ContinuousComfort" ≠ some HVACMode.heat ∧
    HotWaterPy.REMEHA_MODE_TO_HVAC_MODE "ContinuousComfort" = none ∧
    HotWaterPy.HVAC_MODE_TO_REMEHA_MODE HVACMode.heat ≠ some "ContinuousComfort" := by
  decide

/-- C4 as amended: the vendor ContinuousComfort/Scheduling/Off to abstract
Heat/Auto/Off translation is the claimed bijection — both directions round-trip
— for the hot-water entity defined in climate.py; the hot-water entity defined
in hot_water.py instead uses the climate-zone vocabulary (Manual to Heat,
Scheduling to Auto, FrostProtection to Off, with a matching reverse map) and
maps ContinuousComfort and Off to no mode at all. -/
theorem C4_amended_hw_mode_translation :
    (ClimatePy.REMEHA_HW_MODE_TO_HVAC_MODE "ContinuousComfort" = some HVACMode.heat ∧
     ClimatePy.REMEHA_HW_MODE_TO_HVAC_MODE "Scheduling" = some HVACMode.auto ∧
     ClimatePy.REMEHA_HW_MODE_TO_HVAC_MODE "Off" = some HVACMode.off ∧
     ClimatePy.HVAC_MODE_TO_REMEHA_HW_MODE HVACMode.heat = some "ContinuousComfort" ∧
     ClimatePy.HVAC_MODE_TO_REMEHA_HW_MODE HVACMode.auto = some "Scheduling" ∧
     ClimatePy.HVAC_MODE_TO_REMEHA_HW_MODE HVACMode.off = some "Off") ∧
    ((ClimatePy.REMEHA_HW_MODE_TO_HVAC_MODE "ContinuousComfort").bind
        ClimatePy.HVAC_MODE_TO_REMEHA_HW_MODE = some "ContinuousComfort" ∧
     (ClimatePy.REMEHA_HW_MODE_TO_HVAC_MODE "Scheduling").bind
        ClimatePy.HVAC_MODE_TO_REMEHA_HW_MODE = some "Scheduling" ∧
     (ClimatePy.REMEHA_HW_MODE_TO_HVAC_MODE "Off").bind
        ClimatePy.HVAC_MODE_TO_REMEHA_HW_MODE = some "Off" ∧
     (ClimatePy.HVAC_MODE_TO_REMEHA_HW_MODE HVACMode.heat).bind
        ClimatePy.REMEHA_HW_MODE_TO_HVAC_MODE = some HVACMode.heat ∧
     (ClimatePy.HVAC_MODE_TO_REMEHA_HW_MODE HVACMode.auto).bind
        ClimatePy.REMEHA_HW_MODE_TO_HVAC_MODE = some HVACMode.auto ∧
     (ClimatePy.HVAC_MODE_TO_REMEHA_HW_MODE HVACMode.off).bind
        ClimatePy.REMEHA_HW_MODE_TO_HVAC_MODE = some HVACMode.off) ∧
    (HotWaterPy.REMEHA_MODE_TO_HVAC_MODE "Manual" = some HVACMode.heat ∧
     HotWaterPy.REMEHA_MODE_TO_HVAC_MODE "Scheduling" = some HVACMode.auto ∧
     HotWaterPy.REMEHA_MODE_TO_HVAC_MODE "FrostProtection" = some HVACMode.off ∧
     HotWaterPy.REMEHA_MODE_TO_HVAC_MODE "ContinuousComfort" = none ∧
     HotWaterPy.REMEHA_MODE_TO_HVAC_MODE "Off" = none ∧
     HotWaterPy.HVAC_MODE_TO_REMEHA_MODE HVACMode.heat = some "Manual" ∧
     HotWaterPy.HVAC_MODE_TO_REMEHA_MODE HVACMode.auto = some "Scheduling" ∧
     HotWaterPy.HVAC_MODE_TO_REMEHA_MODE HVACMode.off = some "FrostProtection") := by
  decide

/-- C5 counterexample: the hot_water.py entity in Heat mode (its own
vocabulary: dhwZoneMode Manual) sends the raw requested value 22.5 in the
comfort-setpoint call — a fractional hot-water setpoint is transmitted. -/
theorem C5_counterexample_fractional_setpoint_sent :
    HotWaterPy.HotWaterEntity.hvac_mode ⟨50, 55, 65, some "Manual", "Idle", 1, 60⟩ =
      some HVACMode.heat ∧
    (HotWaterPy.HotWaterEntity.async_set_temperature "zone1" 0 ⟨0⟩
        ⟨50, 55, 65, some "Manual", "Idle", 1, 60⟩ (45 / 2)).calls =
      [RemoteCall.hwSetComfortSetpoint "zone1" (45 / 2),
       RemoteCall.hwSetContinuousComfort "zone1"] ∧
    ((45 : ℚ) / 2).den ≠ 1 := by
  refine ⟨by decide, rfl, ?_⟩
  norm_num

/-- C5 as amended: the whole-number guarantee holds for the hot-water entity
defined in climate.py — in Heat mode every requested temperature is truncated
by `int()` and the transmitted comfort setpoint is a whole number — while the
hot_water.py entity transmits the raw, possibly fractional, value. -/
theorem C5_amended_truncated_hw_setpoint (zoneId : String) (now : ℕ)
    (c : Coordinator) (z : HotWaterZoneData) (t : ℚ)
    (hm : ClimatePy.HotWaterEntity.hvac_mode z = some HVACMode.heat) :
    (ClimatePy.HotWaterEntity.async_set_temperature zoneId now c z t).calls =
      [RemoteCall.hwSetComfortSetpoint zoneId ((pyInt t : ℤ) : ℚ),
       RemoteCall.hwSetContinuousComfort zoneId] ∧
    ((pyInt t : ℤ) : ℚ).den = 1 := by
  constructor
  · simp [ClimatePy.HotWaterEntity.async_set_temperature, hm,
      ClimatePy.HotWaterEntity.set_continuous_comfort_with_temperature]
  · exact Rat.den_intCast (pyInt t)

/-- Witness for C5 as amended: requested 22.5 on a Heat-mode (ContinuousComfort)
hot-water zone of climate.py; the transmitted setpoint is the whole number 22. -/
theorem C5_amended_witness :
    ClimatePy.HotWaterEntity.hvac_mode ⟨50, 55, 65, some "ContinuousComfort", "Idle", 1, 60⟩ =
      some HVACMode.heat ∧
    ((ClimatePy.HotWaterEntity.async_set_temperature "zone1" 0 ⟨0⟩
        ⟨50, 55, 65, some "ContinuousComfort", "Idle", 1, 60⟩ (45 / 2)).calls =
      [RemoteCall.hwSetComfortSetpoint "zone1" ((pyInt (45 / 2) : ℤ) : ℚ),
       RemoteCall.hwSetContinuousComfort "zone1"] ∧
     ((pyInt (45 / 2) : ℤ) : ℚ).den = 1) :=
  ⟨by decide,
    C5_amended_truncated_hw_setpoint "zone1" 0 ⟨0⟩
      ⟨50, 55, 65, some "ContinuousComfort", "Idle", 1, 60⟩ (45 / 2) (by decide)⟩

/-- C6 counterexample: on the hot_water.py entity, `setMode(Heat)` is a
committed write — it overlays the mode, makes the continuous-comfort call and
returns without error — yet the suppression deadline is left untouched, and the
very next background poll (here at time 1) overwrites the overlaid state with
the stale snapshot. -/
theorem C6_counterexample_no_block_in_hot_water_file :
    (HotWaterPy.HotWaterEntity.async_set_hvac_mode "zone1" 0 ⟨0⟩
        ⟨50, 55, 65, some "FrostProtection", "Idle", 1, 60⟩ HVACMode.heat).outcome =
      Py.ok () ∧
    (HotWaterPy.HotWaterEntity.async_set_hvac_mode "zone1" 0 ⟨0⟩
        ⟨50, 55, 65, some "FrostProtection", "Idle", 1, 60⟩ HVACMode.heat).calls =
      [RemoteCall.hwSetContinuousComfort "zone1"] ∧
    (HotWaterPy.HotWaterEntity.async_set_hvac_mode "zone1" 0 ⟨0⟩
        ⟨50, 55, 65, some "FrostProtection", "Idle", 1, 60⟩ HVACMode.heat).coord =
      ⟨0⟩ ∧
    (HotWaterPy.HotWaterEntity.async_set_hvac_mode "zone1" 0 ⟨0⟩
        ⟨50, 55, 65, some "FrostProtection", "Idle", 1, 60⟩ HVACMode.heat).coord ≠
      trigger_update_block 0 60 ⟨0⟩ ∧
    applyPoll 1
      (HotWaterPy.HotWaterEntity.async_set_hvac_mode "zone1" 0 ⟨0⟩
        ⟨50, 55, 65, some "FrostProtection", "Idle", 1, 60⟩ HVACMode.heat).coord
      ⟨50, 55, 65, some "FrostProtection", "Idle", 1, 60⟩
      (HotWaterPy.HotWaterEntity.async_set_hvac_mode "zone1" 0 ⟨0⟩
        ⟨50, 55, 65, some "FrostProtection", "Idle", 1, 60⟩ HVACMode.heat).data =
      ⟨50, 55, 65, some "FrostProtection", "Idle", 1, 60⟩ ∧
    (HotWaterPy.HotWaterEntity.async_set_hvac_mode "zone1" 0 ⟨0⟩
        ⟨50, 55, 65, some "FrostProtection", "Idle", 1, 60⟩ HVACMode.heat).data ≠
      ⟨50, 55, 65, some "FrostProtection", "Idle", 1, 60⟩ := by
  decide

/-- C6 as amended: every committed write of the climate.py entities — set
temperature (modes other than Off for the climate zone, Heat for the hot-water
zone), accepted set mode, accepted set preset (for the hot-water zone, when the
previous mode was not already Auto) — sets the suppression deadline to
now + 60, and while a poll arrives at or before that deadline the overlaid
cached state wins; the hot_water.py entity never touches the deadline on any of
its three write operations. -/
theorem C6_amended_update_block (zoneId : String) (now : ℕ) (c : Coordinator) :
    (∀ (z : ClimateZoneData) (t : ℚ),
      ClimatePy.ClimateEntity.hvac_mode z ≠ some HVACMode.off →
      (ClimatePy.ClimateEntity.async_set_temperature zoneId now c z t).coord =
        trigger_update_block now 60 c) ∧
    (∀ (z : ClimateZoneData) (m : HVACMode), m ∈ ClimatePy.ClimateEntity.hvac_modes →
      (ClimatePy.ClimateEntity.async_set_hvac_mode zoneId now c z m).coord =
        trigger_update_block now 60 c) ∧
    (∀ (z : ClimateZoneData) (p : String), ClimatePy.PRESET_MODE_TO_PRESET_INDEX p ≠ none →
      (ClimatePy.ClimateEntity.async_set_preset_mode now c z p).coord =
        trigger_update_block now 60 c) ∧
    (∀ (z : HotWaterZoneData) (t : ℚ),
      ClimatePy.HotWaterEntity.hvac_mode z = some HVACMode.heat →
      (ClimatePy.HotWaterEntity.async_set_temperature zoneId now c z t).coord =
        trigger_update_block now 60 c) ∧
    (∀ (z : HotWaterZoneData) (m : HVACMode), m ∈ ClimatePy.HotWaterEntity.hvac_modes →
      (ClimatePy.HotWaterEntity.async_set_hvac_mode zoneId now c z m).coord =
        trigger_update_block now 60 c) ∧
    (∀ (z : HotWaterZoneData) (p : String),
      ClimatePy.HW_PRESET_MODE_TO_PRESET_INDEX p ≠ none →
      ClimatePy.HotWaterEntity.hvac_mode z ≠ some HVACMode.auto →
      (ClimatePy.HotWaterEntity.async_set_preset_mode zoneId now c z p).coord =
        trigger_update_block now 60 c) ∧
    (∀ (z : HotWaterZoneData) (t : ℚ) (m : HVACMode) (p : String),
      (HotWaterPy.HotWaterEntity.async_set_temperature zoneId now c z t).coord = c ∧
      (HotWaterPy.HotWaterEntity.async_set_hvac_mode zoneId now c z m).coord = c ∧
      (HotWaterPy.HotWaterEntity.async_set_preset_mode zoneId now c z p).coord = c) ∧
    (∀ (fresh cached : HotWaterZoneData) (pollAt : ℕ), pollAt ≤ now + 60 →
      applyPoll pollAt (trigger_update_block now 60 c) fresh cached = cached) := by
  refine ⟨?_, ?_, ?_, ?_, ?_, ?_, ?_, ?_⟩
  · intro z t h
    simp [ClimatePy.ClimateEntity.async_set_temperature, h]
  · intro z m h
    simp [ClimatePy.ClimateEntity.async_set_hvac_mode, h]
  · intro z p h
    rcases hp : ClimatePy.PRESET_MODE_TO_PRESET_INDEX p with _ | i
    · exact absurd hp h
    · simp [ClimatePy.ClimateEntity.async_set_preset_mode, hp]
  · intro z t h
    simp [ClimatePy.HotWaterEntity.async_set_temperature, h]
  · intro z m h
    simp [ClimatePy.HotWaterEntity.async_set_hvac_mode, h]
  · intro z p hp hz
    rcases hq : ClimatePy.HW_PRESET_MODE_TO_PRESET_INDEX p with _ | i
    · exact absurd hq hp
    · simp [ClimatePy.HotWaterEntity.async_set_preset_mode, hq, hz]
  · intro z t m p
    refine ⟨?_, ?_, ?_⟩
    · unfold HotWaterPy.HotWaterEntity.async_set_temperature
      split_ifs <;> rfl
    · unfold HotWaterPy.HotWaterEntity.async_set_hvac_mode
      split_ifs <;> rfl
    · unfold HotWaterPy.HotWaterEntity.async_set_preset_mode
      rcases HotWaterPy.PRESET_MODE_TO_PRESET_INDEX p with _ | i
      · rfl
      · split_ifs <;> rfl
  · intro fresh cached pollAt h
    unfold applyPoll trigger_update_block
    rw [if_neg]
    simp only [Nat.not_lt]
    exact h

/-- Witness for C6 as amended: concrete committed writes on each climate.py
operation set the deadline to 60 (with now = 0); the three hot_water.py
operations leave it at 0; a poll at time 30 is suppressed. -/
theorem C6_amended_witness :
    ClimatePy.ClimateEntity.hvac_mode ⟨20, 21, 5, 30, some "Scheduling", "Idle", 2⟩ ≠
      some HVACMode.off ∧
    (ClimatePy.ClimateEntity.async_set_temperature "zone1" 0 ⟨0⟩
        ⟨20, 21, 5, 30, some "Scheduling", "Idle", 2⟩ 21).coord =
      trigger_update_block 0 60 ⟨0⟩ ∧
    (ClimatePy.ClimateEntity.async_set_hvac_mode "zone1" 0 ⟨0⟩
        ⟨20, 21, 5, 30, some "Scheduling", "Idle", 2⟩ HVACMode.heat).coord =
      trigger_update_block 0 60 ⟨0⟩ ∧
    (ClimatePy.ClimateEntity.async_set_preset_mode 0 ⟨0⟩
        ⟨20, 21, 5, 30, some "Scheduling", "Idle", 2⟩ "clock_program_1").coord =
      trigger_update_block 0 60 ⟨0⟩ ∧
    (ClimatePy.HotWaterEntity.async_set_temperature "zone1" 0 ⟨0⟩
        ⟨50, 55, 65, some "ContinuousComfort", "Idle", 1, 60⟩ (45 / 2)).coord =
      trigger_update_block 0 60 ⟨0⟩ ∧
    (ClimatePy.HotWaterEntity.async_set_hvac_mode "zone1" 0 ⟨0⟩
        ⟨50, 55, 65, some "ContinuousComfort", "Idle", 1, 60⟩ HVACMode.auto).coord =
      trigger_update_block 0 60 ⟨0⟩ ∧
    (ClimatePy.HotWaterEntity.async_set_preset_mode "zone1" 0 ⟨0⟩
        ⟨50, 55, 65, some "Off", "Idle", 1, 60⟩ "Scheduling program").coord =
      trigger_update_block 0 60 ⟨0⟩ ∧
    ((HotWaterPy.HotWaterEntity.async_set_temperature "zone1" 0 ⟨0⟩
        ⟨50, 55, 65, some "Manual", "Idle", 1, 60⟩ (45 / 2)).coord = ⟨0⟩ ∧
     (HotWaterPy.HotWaterEntity.async_set_hvac_mode "zone1" 0 ⟨0⟩
        ⟨50, 55, 65, some "Manual", "Idle", 1, 60⟩ HVACMode.heat).coord = ⟨0⟩ ∧
     (HotWaterPy.HotWaterEntity.async_set_preset_mode "zone1" 0 ⟨0⟩
        ⟨50, 55, 65, some "Manual", "Idle", 1, 60⟩ "Scheduling program").coord = ⟨0⟩) ∧
    applyPoll 30 (trigger_update_block 0 60 ⟨0⟩)
      (⟨51, 50, 65, some "Scheduling", "Idle", 1, 60⟩ : HotWaterZoneData)
      ⟨50, 55, 65, some "ContinuousComfort", "Idle", 1, 60⟩ =
      ⟨50, 55, 65, some "ContinuousComfort", "Idle", 1, 60⟩ :=
  ⟨by decide,
    (C6_amended_update_block "zone1" 0 ⟨0⟩).1 _ 21 (by decide),
    (C6_amended_update_block "zone1" 0 ⟨0⟩).2.1 _ HVACMode.heat (by decide),
    (C6_amended_update_block "zone1" 0 ⟨0⟩).2.2.1 _ "clock_program_1" (by decide),
    (C6_amended_update_block "zone1" 0 ⟨0⟩).2.2.2.1 _ (45 / 2) (by decide),
    (C6_amended_update_block "zone1" 0 ⟨0⟩).2.2.2.2.1 _ HVACMode.auto (by decide),
    (C6_amended_update_block "zone1" 0 ⟨0⟩).2.2.2.2.2.1 _ "Scheduling program"
      (by decide) (by decide),
    (C6_amended_update_block "zone1" 0 ⟨0⟩).2.2.2.2.2.2.1 _ (45 / 2) HVACMode.heat
      "Scheduling program",
    (C6_amended_update_block "zone1" 0 ⟨0⟩).2.2.2.2.2.2.2 _ _ 30 (by decide)⟩

/-- C10: reading `preset_mode` while the mode reads Auto is partial — when the
cached active time-program number is outside the configured preset table
(climate: 1..3; hot water: only 1), the read raises `KeyError` instead of
returning `None` — unlike `hvac_mode` and `hvac_action`, which return `None`
for any unmapped vendor string. -/
theorem C10_preset_read_raises_lookup_error :
    (∀ z : ClimateZoneData, ClimatePy.ClimateEntity.hvac_mode z = some HVACMode.auto →
      z.activeHeatingClimateTimeProgramNumber ∉ ([1, 2, 3] : List ℤ) →
      ClimatePy.ClimateEntity.preset_mode z = Py.raised PyError.keyError) ∧
    (∀ z : HotWaterZoneData, ClimatePy.HotWaterEntity.hvac_mode z = some HVACMode.auto →
      z.activeDwhTimeProgramNumber ≠ 1 →
      ClimatePy.HotWaterEntity.preset_mode z = Py.raised PyError.keyError) ∧
    (∀ z : HotWaterZoneData, HotWaterPy.HotWaterEntity.hvac_mode z = some HVACMode.auto →
      z.activeDwhTimeProgramNumber ≠ 1 →
      HotWaterPy.HotWaterEntity.preset_mode z = Py.raised PyError.keyError) ∧
    (∀ (z : ClimateZoneData) (s : String), z.zoneMode = some s →
      s ∉ (["Scheduling", "TemporaryOverride", "Manual", "FrostProtection"] : List String) →
      ClimatePy.ClimateEntity.hvac_mode z = none) ∧
    (∀ z : ClimateZoneData, ClimatePy.ClimateEntity.hvac_mode z ≠ some HVACMode.off →
      z.activeComfortDemand ∉ (["ProducingHeat", "RequestingHeat", "Idle"] : List String) →
      ClimatePy.ClimateEntity.hvac_action z = none) ∧
    (∀ (z : HotWaterZoneData) (s : String), z.dhwZoneMode = some s →
      s ∉ (["ContinuousComfort", "Scheduling", "Off"] : List String) →
      ClimatePy.HotWaterEntity.hvac_mode z = none) := by
  refine ⟨?_, ?_, ?_, ?_, ?_, ?_⟩
  · intro z hz hnot
    simp only [List.mem_cons, List.not_mem_nil, or_false, not_or] at hnot
    obtain ⟨h1, h2, h3⟩ := hnot
    simp [ClimatePy.ClimateEntity.preset_mode, hz, ClimatePy.PRESET_INDEX_TO_PRESET_MODE,
      h1, h2, h3]
  · intro z hz h1
    simp [ClimatePy.HotWaterEntity.preset_mode, hz,
      ClimatePy.PRESET_INDEX_TO_HW_PRESET_MODE, h1]
  · intro z hz h1
    simp [HotWaterPy.HotWaterEntity.preset_mode, hz,
      HotWaterPy.PRESET_INDEX_TO_PRESET_MODE, h1]
  · intro z s hs hnot
    simp only [List.mem_cons, List.not_mem_nil, or_false, not_or] at hnot
    obtain ⟨h1, h2, h3, h4⟩ := hnot
    simp [ClimatePy.ClimateEntity.hvac_mode, hs, ClimatePy.REMEHA_MODE_TO_HVAC_MODE,
      h1, h2, h3, h4]
  · intro z hz hnot
    simp only [List.mem_cons, List.not_mem_nil, or_false, not_or] at hnot
    obtain ⟨h1, h2, h3⟩ := hnot
    simp [ClimatePy.ClimateEntity.hvac_action, hz, ClimatePy.REMEHA_STATUS_TO_HVAC_ACTION,
      h1, h2, h3]
  · intro z s hs hnot
    simp only [List.mem_cons, List.not_mem_nil, or_false, not_or] at hnot
    obtain ⟨h1, h2, h3⟩ := hnot
    simp [ClimatePy.HotWaterEntity.hvac_mode, hs, ClimatePy.REMEHA_HW_MODE_TO_HVAC_MODE,
      h1, h2, h3]

/-- Witness for C10: an Auto climate zone with program number 4 and Auto
hot-water zones with program number 2 raise `KeyError` on the preset read,
while unmapped vendor strings make the mode and action reads return `None`. -/
theorem C10_witness :
    ClimatePy.ClimateEntity.hvac_mode ⟨20, 21, 5, 30, some "Scheduling", "Idle", 4⟩ =
      some HVACMode.auto ∧
    (4 : ℤ) ∉ ([1, 2, 3] : List ℤ) ∧
    ClimatePy.ClimateEntity.preset_mode ⟨20, 21, 5, 30, some "Scheduling", "Idle", 4⟩ =
      Py.raised PyError.keyError ∧
    ClimatePy.HotWaterEntity.preset_mode ⟨50, 55, 65, some "Scheduling", "Idle", 2, 60⟩ =
      Py.raised PyError.keyError ∧
    HotWaterPy.HotWaterEntity.preset_mode ⟨50, 55, 65, some "Scheduling", "Idle", 2, 60⟩ =
      Py.raised PyError.keyError ∧
    ClimatePy.ClimateEntity.hvac_mode ⟨20, 21, 5, 30, some "Garbage", "Idle", 1⟩ = none ∧
    ClimatePy.ClimateEntity.hvac_action ⟨20, 21, 5, 30, some "Manual", "Unknown", 1⟩ =
      none ∧
    ClimatePy.HotWaterEntity.hvac_mode ⟨50, 55, 65, some "Manual", "Idle", 1, 60⟩ =
      none :=
  ⟨by decide, by decide,
    C10_preset_read_raises_lookup_error.1 ⟨20, 21, 5, 30, some "Scheduling", "Idle", 4⟩
      (by decide) (by decide),
    C10_preset_read_raises_lookup_error.2.1 ⟨50, 55, 65, some "Scheduling", "Idle", 2, 60⟩
      (by decide) (by decide),
    C10_preset_read_raises_lookup_error.2.2.1 ⟨50, 55, 65, some "Scheduling", "Idle", 2, 60⟩
      (by decide) (by decide),
    C10_preset_read_raises_lookup_error.2.2.2.1 ⟨20, 21, 5, 30, some "Garbage", "Idle", 1⟩
      "Garbage" rfl (by decide),
    C10_preset_read_raises_lookup_error.2.2.2.2.1 ⟨20, 21, 5, 30, some "Manual", "Unknown", 1⟩
      (by decide) (by decide),
    C10_preset_read_raises_lookup_error.2.2.2.2.2 ⟨50, 55, 65, some "Manual", "Idle", 1, 60⟩
      "Manual" rfl (by decide)⟩
